import Mathlib

/-!
Shallow embedding of the `smart-agentic-ats-resume` repository
(`src/utils/crew.py`, `src/utils/agents.py`, `src/db/connection.py`,
`src/db/queries.py`) together with proofs of the specification claims.

Python values are modelled as follows: byte strings become `List Nat`,
`None`-able strings become `Option String`, the process environment and the
filesystem become an explicit `Env` record, and `datetime.now()` becomes an
explicit clock argument.  Python truthiness of an optional string
(`if serper_key:`) is `pyTruthy` below: `None` and the empty string are falsy.
-/

namespace ATS

/-- Python truthiness of an `Optional[str]`: `None` and `""` are falsy. -/
def pyTruthy : Option String → Bool
  | none => false
  | some s => s ≠ ""

/-- The process environment and filesystem visible to `crew.py`:
`os.environ.get("SERPER_API_KEY")` and `os.path.exists`. -/
structure Env where
  serper_api_key : Option String
  pathExists : String → Bool

/-- Tool objects constructed in `create_job_application_crew`
(`ScrapeWebsiteTool()`, `SerperDevTool(api_key=...)`,
`FileReadTool(file_path=...)`, `MDXSearchTool(mdx=...)`). -/
inductive Tool where
  | scrapeWebsite : Tool
  | serperDev (api_key : String) : Tool
  | fileRead (file_path : String) : Tool
  | mdxSearch (mdx : String) : Tool
deriving DecidableEq, Repr

/-- The `tools_dict` dictionary built in `create_job_application_crew`:
a finite map with the four possible keys `"scrape"`, `"search"`,
`"read_resume"`, `"semantic_search"`; `tools.get(k)` is field access. -/
structure ToolsDict where
  scrape : Option Tool
  search : Option Tool
  read_resume : Option Tool
  semantic_search : Option Tool
deriving DecidableEq, Repr

/-- An `Agent(...)` as constructed in `create_agents`. -/
structure Agent where
  role : String
  goal : String
  backstory : String
  tools : List Tool
  verbose : Bool
deriving DecidableEq, Repr

/-- `if tool: lst.append(tool)` — append an optional tool to a list. -/
def appendIf (l : List Tool) (t : Option Tool) : List Tool :=
  match t with
  | some tool => l ++ [tool]
  | none => l

/-- `create_agents(tools)` from `src/utils/crew.py` lines 37–129:
builds the four tool lists by conditional appends and returns
`[researcher, profiler, resume_strategist, interview_preparer]`. -/
def create_agents (tools : ToolsDict) : List Agent :=
  let search_tool := tools.search
  let scrape_tool := tools.scrape
  let read_resume_tool := tools.read_resume
  let semantic_search_tool := tools.semantic_search
  let researcher_tools :=
    appendIf (appendIf [] scrape_tool) search_tool
  let profiler_tools :=
    appendIf (appendIf (appendIf (appendIf [] scrape_tool) search_tool)
      read_resume_tool) semantic_search_tool
  let strategist_tools :=
    appendIf (appendIf (appendIf (appendIf [] scrape_tool) search_tool)
      read_resume_tool) semantic_search_tool
  let interviewer_tools :=
    appendIf (appendIf (appendIf (appendIf [] scrape_tool) search_tool)
      read_resume_tool) semantic_search_tool
  let researcher : Agent :=
    { role := "Tech Job Researcher"
      goal := "Analyze job postings deeply to identify required skills & qualifications."
      backstory := "Extract critical information from job postings to form the foundation for tailored resume content."
      tools := researcher_tools
      verbose := true }
  let profiler : Agent :=
    { role := "Personal Profiler for Engineers"
      goal := "Compile detailed personal and professional profiles from diverse sources."
      backstory := "Analyze personal projects, publications, and professional history to create comprehensive profiles for resume tailoring."
      tools := profiler_tools
      verbose := true }
  let resume_strategist : Agent :=
    { role := "Resume Strategist for Engineers"
      goal := "Optimize resumes so they align tightly with job requirements."
      backstory := "Expert at tailoring resumes to highlight the most relevant experience and skills for specific job postings."
      tools := strategist_tools
      verbose := true }
  let interview_preparer : Agent :=
    { role := "Engineering Interview Preparer"
      goal := "Generate focused interview questions & talking points."
      backstory := "Prepare candidates for interviews by creating tailored questions and talking points based on job requirements and their background."
      tools := interviewer_tools
      verbose := true }
  [researcher, profiler, resume_strategist, interview_preparer]

/-- A `Task(...)` as constructed in `create_tasks`.  The `context` field holds
the upstream tasks themselves, as in the source. -/
inductive Task where
  | mk (name : String) (description : String) (expected_output : String)
       (agent : Agent) (async_execution : Bool) (output_file : Option String)
       (context : List Task)

/-- Name of a task. -/
def Task.name : Task → String
  | .mk n _ _ _ _ _ _ => n

/-- Declared upstream dependencies (`context=[...]`) of a task. -/
def Task.context : Task → List Task
  | .mk _ _ _ _ _ _ c => c

/-- Agent assigned to a task. -/
def Task.agent : Task → Agent
  | .mk _ _ _ a _ _ _ => a

/-- `async_execution` flag of a task. -/
def Task.async_execution : Task → Bool
  | .mk _ _ _ _ b _ _ => b

/-- `output_file` of a task. -/
def Task.output_file : Task → Option String
  | .mk _ _ _ _ _ o _ => o

/-- `create_tasks(agents)` from `src/utils/crew.py` lines 131–190.
The Python `researcher, profiler, strategist, interviewer = agents` unpacking
raises unless the list has exactly four elements; that failure is `none`. -/
def create_tasks (agents : List Agent) : Option (List Task) :=
  match agents with
  | [researcher, profiler, strategist, interviewer] =>
    let research_task : Task :=
      .mk "Extract Job Requirements"
        "Analyze the job posting URL ({job_posting_url}) to extract key skills, experiences, and qualifications required."
        "Structured list of required skills, qualifications, and experiences."
        researcher true none []
    let profile_task : Task :=
      .mk "Compile Applicant Profile"
        "Compile a profile using GitHub, LinkedIn, Google Scholar, Portfolio and personal write-up sources."
        "Comprehensive profile including skills, projects, publications, and highlights."
        profiler true none []
    let resume_strategy_task : Task :=
      .mk "Tailor Resume"
        "Using outputs from previous tasks, tailor the resume to highlight the most relevant experience and skills. Do not invent information."
        "Markdown resume perfectly aligned with the job posting."
        strategist false (some "tailored_resume.md")
        [research_task, profile_task]
    let interview_task : Task :=
      .mk "Prepare Interview Materials"
        "Generate interview questions and talking points based on the tailored resume and job requirements to prepare the candidate."
        "Markdown with key questions and talking points."
        interviewer false (some "interview_materials.md")
        [research_task, profile_task, resume_strategy_task]
    some [research_task, profile_task, resume_strategy_task, interview_task]
  | _ => none

/-- Warning messages logged by `create_job_application_crew`. -/
def warnNoSerper : String :=
  "SERPER_API_KEY not found. Search functionality will be limited."

/-- Warning when the resume path is missing or does not exist. -/
def warnNoResume : String :=
  "Resume path not provided or does not exist"

/-- Warning when the MDX path is missing or does not exist. -/
def warnNoMdx : String :=
  "MDX path not provided or does not exist"

/-- The tool-registry block of `create_job_application_crew`
(`src/utils/crew.py` lines 194–221): builds `tools_dict` and the list of
logged warnings.  `scrape` is added unconditionally; `search` requires a
truthy `SERPER_API_KEY`; `read_resume` and `semantic_search` require a truthy
path that exists on disk. -/
def build_tools_dict (env : Env) (resume_path mdx_path : Option String) :
    ToolsDict × List String :=
  let base : ToolsDict :=
    { scrape := some .scrapeWebsite
      search := none, read_resume := none, semantic_search := none }
  let serper_key := env.serper_api_key
  let (d1, w1) :=
    if pyTruthy serper_key then
      ({ base with search := some (.serperDev (serper_key.getD "")) }, ([] : List String))
    else
      (base, [warnNoSerper])
  let (d2, w2) :=
    match resume_path with
    | some p =>
      if p ≠ "" ∧ env.pathExists p then
        ({ d1 with read_resume := some (.fileRead p) }, w1)
      else (d1, w1 ++ [warnNoResume])
    | none => (d1, w1 ++ [warnNoResume])
  match mdx_path with
  | some p =>
    if p ≠ "" ∧ env.pathExists p then
      ({ d2 with semantic_search := some (.mdxSearch p) }, w2)
    else (d2, w2 ++ [warnNoMdx])
  | none => (d2, w2 ++ [warnNoMdx])

/-- A `Crew(agents=..., tasks=..., verbose=True)` object. -/
structure Crew where
  agents : List Agent
  tasks : List Task
  verbose : Bool

/-- `create_job_application_crew(resume_path, mdx_path)` from
`src/utils/crew.py` lines 194–226.  The only failure point inside the body is
the four-way unpacking in `create_tasks`; `Except.error` models a raised
exception. -/
def create_job_application_crew (env : Env) (resume_path mdx_path : Option String) :
    Except String (Crew × List String) :=
  let (tools_dict, warns) := build_tools_dict env resume_path mdx_path
  let agents := create_agents tools_dict
  match create_tasks agents with
  | none => .error "ValueError: not enough values to unpack"
  | some tasks => .ok ({ agents := agents, tasks := tasks, verbose := true }, warns)

/-- The default resume path computed in `LazyJobApplicationCrew.kickoff`:
`project_root / "data" / "Nikhil_Nageshwar_Inturi.pdf"` (the absolute prefix
is process-dependent; the constant stands for the resolved path). -/
def defaultResumePath : String := "data/Nikhil_Nageshwar_Inturi.pdf"

/-- The default MDX path in `LazyJobApplicationCrew.kickoff` (the source uses
the same PDF file for both). -/
def defaultMdxPath : String := "data/Nikhil_Nageshwar_Inturi.pdf"

/-- One `kickoff` call on a `LazyJobApplicationCrew` instance
(`src/utils/crew.py` lines 229–248).  The instance state is the memoized
`_crew` field (`Option Crew`).  Returns the crew whose external `kickoff`
is invoked, the new instance state, and whether this call constructed the
crew (`True` exactly when `self._crew is None` on entry). -/
def lazyKickoff (env : Env) (st : Option Crew) :
    Crew × Option Crew × Bool :=
  match st with
  | some c => (c, some c, false)
  | none =>
    let resume_path :=
      if env.pathExists defaultResumePath then some defaultResumePath else none
    let mdx_path :=
      if env.pathExists defaultMdxPath then some defaultMdxPath else none
    let c :=
      match create_job_application_crew env resume_path mdx_path with
      | .ok (crew, _) => crew
      | .error _ =>
        { agents := [], tasks := [], verbose := true }
    (c, some c, true)

/-- Run `n` successive `kickoff` invocations on one instance starting from
state `st`.  Returns the list of crews whose external `kickoff` was invoked
(most recent first), the final instance state, and the number of calls that
constructed a crew. -/
def runKickoffs (env : Env) (st : Option Crew) : Nat → List Crew × Option Crew × Nat
  | 0 => ([], st, 0)
  | n + 1 =>
    let (crews, st', builds) := runKickoffs env st n
    let (c, st'', built) := lazyKickoff env st'
    (c :: crews, st'', builds + (if built then 1 else 0))

/-- `tailor_resume(resume_content, job_description)` from
`src/utils/agents.py` lines 9–29: a stub that logs and returns the original
content. -/
def tailor_resume (resume_content : List Nat) (job_description : String) :
    List Nat :=
  let _ := job_description.length
  resume_content

/-- `MockQuery` from `src/db/connection.py` lines 29–39.  The class carries
no state; its methods ignore their arguments. -/
structure MockQuery where
deriving DecidableEq, Repr

/-- Positional/keyword arguments passed to a mock `filter` or `query` call,
modelled opaquely. -/
def CallArgs := List String

/-- `MockQuery.filter(*args, **kwargs)`: returns `self`. -/
def MockQuery.filter (q : MockQuery) (args : CallArgs) : MockQuery :=
  let _ := args
  q

/-- `MockQuery.all()`: returns `[]`.  The element type is abstract since the
mock never produces a record. -/
def MockQuery.all (q : MockQuery) {α : Type} : List α :=
  let _ := q
  []

/-- `MockQuery.first()`: returns `None`. -/
def MockQuery.first (q : MockQuery) {α : Type} : Option α :=
  let _ := q
  none

/-- `MockSession` from `src/db/connection.py`: stateless. -/
structure MockSession where
deriving DecidableEq, Repr

/-- `MockSession.query(*args, **kwargs)`: returns a fresh `MockQuery()`. -/
def MockSession.query (s : MockSession) (args : CallArgs) : MockQuery :=
  let _ := s
  let _ := args
  {}

/-- Chain a finite sequence of `filter` calls onto a query. -/
def chainFilters (q : MockQuery) (calls : List CallArgs) : MockQuery :=
  calls.foldl MockQuery.filter q

/-- Opaque database session handle passed to the stub query functions
(ignored by all of them). -/
def DB := MockSession

/-- `ResumeRecord` from `src/db/queries.py` lines 10–17: `id` is always `1`,
`created_at` is the construction-time clock value (an explicit argument in
this embedding, standing for `datetime.now()`). -/
structure ResumeRecord where
  id : Nat
  user_id : Int
  content : List Nat
  filename : String
  created_at : Nat
deriving DecidableEq, Repr

/-- `ResumeRecord.__init__(user_id, content, filename="resume.pdf")`. -/
def ResumeRecord.init (now : Nat) (user_id : Int) (content : List Nat)
    (filename : String := "resume.pdf") : ResumeRecord :=
  { id := 1, user_id := user_id, content := content,
    filename := filename, created_at := now }

/-- `save_resume(db, user_id, content, filename="tailored_resume.pdf")` from
`src/db/queries.py` lines 20–35: logs and returns a fresh record. -/
def save_resume (db : DB) (now : Nat) (user_id : Int) (content : List Nat)
    (filename : String := "tailored_resume.pdf") : ResumeRecord :=
  let _ := db
  ResumeRecord.init now user_id content filename

/-- `delete_resume(db, resume_id=None, list_only=False)` from
`src/db/queries.py` lines 38–57: returns `[]` when `list_only` is true, else
`None` (modelled by `Option`). -/
def delete_resume (db : DB) (resume_id : Option Int := none)
    (list_only : Bool := false) : Option (List ResumeRecord) :=
  let _ := db
  if list_only then
    some []
  else
    let _ := resume_id
    none

/-- `get_resume_history(db, user_id, limit=10)` from `src/db/queries.py`
lines 60–73: logs and returns an empty list. -/
def get_resume_history (db : DB) (user_id : Int) (limit : Nat := 10) :
    List ResumeRecord :=
  let _ := db
  let _ := user_id
  let _ := limit
  []

/-! ## Helper predicates and lemmas -/

/-- The Python precondition `resume_path and os.path.exists(resume_path)`
for the file-based tools: the path is truthy and exists on disk. -/
def pathPrecond (env : Env) : Option String → Bool
  | none => false
  | some p => (decide (p ≠ "")) && env.pathExists p

/-- The tools of the two-capability agent (researcher): the present members
of `{scrape, search}`, in dictionary order. -/
def researcherSubset (td : ToolsDict) : List Tool :=
  td.scrape.toList ++ td.search.toList

/-- The tools of the four-capability agents (profiler, strategist,
interviewer): the present members of all four capabilities. -/
def fullSubset (td : ToolsDict) : List Tool :=
  td.scrape.toList ++ td.search.toList ++ td.read_resume.toList ++
    td.semantic_search.toList

/-- The crew constructed by the first `kickoff` call on a fresh
`LazyJobApplicationCrew` instance. -/
def firstCrew (env : Env) : Crew :=
  (lazyKickoff env none).1

/-- A concrete environment with no API key and an empty filesystem, used to
witness the degraded-capability behaviour. -/
def envNoKey : Env :=
  { serper_api_key := none, pathExists := fun _ => false }

/-- Task `i` of the list declares task `j` among its upstream dependencies
(`context`). -/
def taskEdge (ts : List Task) (i j : Nat) : Prop :=
  ∃ ti tj, ts[i]? = some ti ∧ ts[j]? = some tj ∧ tj ∈ ti.context

/-- Closed form of `build_tools_dict`: each capability is determined by its
own precondition, and one warning is logged per failed precondition. -/
theorem build_tools_dict_eq (env : Env) (rp mp : Option String) :
    build_tools_dict env rp mp =
      ({ scrape := some .scrapeWebsite
         search :=
           if pyTruthy env.serper_api_key then
             some (.serperDev (env.serper_api_key.getD ""))
           else none
         read_resume :=
           match rp with
           | some p => if p ≠ "" ∧ env.pathExists p then some (.fileRead p) else none
           | none => none
         semantic_search :=
           match mp with
           | some p => if p ≠ "" ∧ env.pathExists p then some (.mdxSearch p) else none
           | none => none },
       (if pyTruthy env.serper_api_key then [] else [warnNoSerper]) ++
         (if pathPrecond env rp then [] else [warnNoResume]) ++
         (if pathPrecond env mp then [] else [warnNoMdx])) := by
  rcases rp with _ | p <;> rcases mp with _ | q <;>
    simp only [build_tools_dict, pathPrecond] <;>
    rcases h : pyTruthy env.serper_api_key <;>
    simp [h] <;> split_ifs <;> simp_all

/-- Closed form of the four agent tool lists. -/
theorem create_agents_eq (td : ToolsDict) :
    ∃ researcher profiler strategist interviewer,
      create_agents td = [researcher, profiler, strategist, interviewer] ∧
      researcher.tools = researcherSubset td ∧
      profiler.tools = fullSubset td ∧
      strategist.tools = fullSubset td ∧
      interviewer.tools = fullSubset td := by
  refine ⟨_, _, _, _, rfl, ?_, ?_, ?_, ?_⟩ <;>
    rcases td with ⟨sc, se, rr, ss⟩ <;>
    rcases sc <;> rcases se <;> rcases rr <;> rcases ss <;>
    simp [create_agents, appendIf, researcherSubset, fullSubset]

/-- Closed form of `runKickoffs` from an already-memoized state: no further
constructions, and every call returns the memoized crew. -/
theorem runKickoffs_some (env : Env) (c : Crew) (m : Nat) :
    runKickoffs env (some c) m = (List.replicate m c, some c, 0) := by
  induction m with
  | zero => rfl
  | succ m ih =>
    simp [runKickoffs, ih, lazyKickoff, List.replicate_succ]

/-- Closed form of `runKickoffs` from a fresh instance: exactly
`min n 1` constructions, the memoized state after any positive number of
calls is the first crew, and every call returns that same crew. -/
theorem runKickoffs_none (env : Env) (n : Nat) :
    runKickoffs env none n =
      (List.replicate n (firstCrew env),
       if n = 0 then none else some (firstCrew env),
       min n 1) := by
  induction n with
  | zero => rfl
  | succ n ih =>
    rw [runKickoffs, ih]
    rcases n with _ | m
    · simp [lazyKickoff, firstCrew, List.replicate_succ]
    · simp only [List.replicate_succ]
      simp [lazyKickoff]

/-- Presence of each capability in the built tools dictionary is equivalent
to its precondition. -/
theorem build_tools_isSome (env : Env) (rp mp : Option String) :
    ((build_tools_dict env rp mp).1).scrape = some Tool.scrapeWebsite ∧
    ((build_tools_dict env rp mp).1).search.isSome = pyTruthy env.serper_api_key ∧
    ((build_tools_dict env rp mp).1).read_resume.isSome = pathPrecond env rp ∧
    ((build_tools_dict env rp mp).1).semantic_search.isSome = pathPrecond env mp := by
  rw [build_tools_dict_eq]
  refine ⟨rfl, ?_, ?_, ?_⟩
  · rcases h : pyTruthy env.serper_api_key <;> simp [h]
  · rcases rp with _ | p
    · simp [pathPrecond]
    · simp only [pathPrecond]
      split_ifs <;> simp_all
  · rcases mp with _ | q
    · simp [pathPrecond]
    · simp only [pathPrecond]
      split_ifs <;> simp_all

/-- When a capability besides `scrape` is absent, every agent tool list has
fewer than the full complement of four tools. -/
theorem subset_length_lt (td : ToolsDict)
    (hsc : td.scrape = some Tool.scrapeWebsite)
    (h : td.search = none ∨ td.read_resume = none ∨ td.semantic_search = none) :
    (researcherSubset td).length < 4 ∧ (fullSubset td).length < 4 := by
  rcases td with ⟨sc, se, rr, ss⟩
  rcases se <;> rcases rr <;> rcases ss <;>
    simp_all [researcherSubset, fullSubset]

/-- `create_job_application_crew` always succeeds, returning the agents built
from the tools dictionary and the logged warnings. -/
theorem create_crew_ok (env : Env) (rp mp : Option String) :
    ∃ crew warns,
      create_job_application_crew env rp mp = .ok (crew, warns) ∧
      crew.agents = create_agents (build_tools_dict env rp mp).1 ∧
      warns = (build_tools_dict env rp mp).2 := by
  rcases hb : build_tools_dict env rp mp with ⟨td, ws⟩
  obtain ⟨r, p, s, i, hag, -, -, -, -⟩ := create_agents_eq td
  obtain ⟨ts, hts⟩ : ∃ ts, create_tasks (create_agents td) = some ts := by
    rw [hag]; exact ⟨_, rfl⟩
  refine ⟨{ agents := create_agents td, tasks := ts, verbose := true }, ws,
    ?_, by simp [hb], by simp [hb]⟩
  simp only [create_job_application_crew, hb, hts]

/-- Shape of the task list produced by `create_tasks` on four agents: the
four concrete tasks, their names, their dependency lists, and the fact that
every declared dependency points strictly earlier in the list. -/
theorem create_tasks_shape (a b c d : Agent) :
    ∃ t0 t1 t2 t3,
      create_tasks [a, b, c, d] = some [t0, t1, t2, t3] ∧
      t0.name = "Extract Job Requirements" ∧
      t1.name = "Compile Applicant Profile" ∧
      t2.name = "Tailor Resume" ∧
      t3.name = "Prepare Interview Materials" ∧
      t0.context = [] ∧ t1.context = [] ∧
      t2.context = [t0, t1] ∧ t3.context = [t0, t1, t2] ∧
      (∀ i j : Nat, taskEdge [t0, t1, t2, t3] i j → j < i) := by
  refine ⟨_, _, _, _, rfl, rfl, rfl, rfl, rfl, rfl, rfl, rfl, rfl, ?_⟩
  intro i j hedge
  obtain ⟨ti, tj, hi, hj, hmem⟩ := hedge
  have hi4 : i < 4 := by
    by_contra hlt
    rw [List.getElem?_eq_none (by simpa using Nat.le_of_not_lt hlt)] at hi
    exact Option.noConfusion hi
  have hj4 : j < 4 := by
    by_contra hlt
    rw [List.getElem?_eq_none (by simpa using Nat.le_of_not_lt hlt)] at hj
    exact Option.noConfusion hj
  interval_cases i <;> interval_cases j <;>
    first
      | omega
      | (simp only [List.getElem?_cons_zero, List.getElem?_cons_succ,
           Option.some.injEq] at hi hj
         subst hi
         subst hj
         simp [Task.context, Task.name] at hmem)

end ATS

namespace ATS

/-! ## Claim theorems -/

/-- C1: for every combination of missing preconditions, the tools dictionary
built by `create_job_application_crew` contains exactly the capabilities
whose preconditions hold (`scrape` always; `search` iff the API key is
truthy; `read_resume` and `semantic_search` iff their path is truthy and
exists), and `create_agents` returns four agents whose tool lists are exactly
the present members of their designated capability subsets (researcher:
scrape and search; profiler, strategist, interviewer: all four). -/
theorem crew_tools_exact (env : Env) (rp mp : Option String) :
    ((build_tools_dict env rp mp).1).scrape.isSome = true ∧
    ((build_tools_dict env rp mp).1).search.isSome = pyTruthy env.serper_api_key ∧
    ((build_tools_dict env rp mp).1).read_resume.isSome = pathPrecond env rp ∧
    ((build_tools_dict env rp mp).1).semantic_search.isSome = pathPrecond env mp ∧
    ∃ researcher profiler strategist interviewer,
      create_agents (build_tools_dict env rp mp).1 =
        [researcher, profiler, strategist, interviewer] ∧
      researcher.tools = researcherSubset (build_tools_dict env rp mp).1 ∧
      profiler.tools = fullSubset (build_tools_dict env rp mp).1 ∧
      strategist.tools = fullSubset (build_tools_dict env rp mp).1 ∧
      interviewer.tools = fullSubset (build_tools_dict env rp mp).1 := by
  obtain ⟨h1, h2, h3, h4⟩ := build_tools_isSome env rp mp
  exact ⟨by rw [h1]; rfl, h2, h3, h4, create_agents_eq _⟩

/-- C2: across any number `n` of `kickoff` invocations on a fresh
`LazyJobApplicationCrew` instance, the underlying crew is constructed exactly
`min n 1` times (so at most once), every invocation returns the crew built by
the first call, and the memoized state after any positive number of calls is
that same crew. -/
theorem lazy_crew_builds_at_most_once (env : Env) (n : Nat) :
    (runKickoffs env none n).2.2 = min n 1 ∧
    (runKickoffs env none n).2.2 ≤ 1 ∧
    (runKickoffs env none n).1 = List.replicate n (firstCrew env) ∧
    (runKickoffs env none n).2.1 =
      (if n = 0 then none else some (firstCrew env)) := by
  rw [runKickoffs_none]
  exact ⟨rfl, Nat.min_le_right n 1, rfl, rfl⟩

/-- C3: each tool handle is present in the tools dictionary exactly when its
precondition holds: `scrape` unconditionally (its construction needs no
credential), `search` iff `SERPER_API_KEY` is truthy, `read_resume` iff the
resume path is truthy and exists, `semantic_search` iff the MDX path is
truthy and exists; absent otherwise. -/
theorem tool_handles_conditional (env : Env) (rp mp : Option String) :
    ((build_tools_dict env rp mp).1).scrape = some Tool.scrapeWebsite ∧
    ((build_tools_dict env rp mp).1).search.isSome = pyTruthy env.serper_api_key ∧
    ((build_tools_dict env rp mp).1).read_resume.isSome = pathPrecond env rp ∧
    ((build_tools_dict env rp mp).1).semantic_search.isSome = pathPrecond env mp :=
  build_tools_isSome env rp mp

/-- C4: whenever a precondition is missing, `create_job_application_crew`
still returns successfully (no exception), logs the corresponding warning,
omits the corresponding capability, and every returned agent has a tool list
shorter than the full complement of four. -/
theorem missing_precondition_degrades (env : Env) (rp mp : Option String)
    (h : pyTruthy env.serper_api_key = false ∨ pathPrecond env rp = false ∨
      pathPrecond env mp = false) :
    ∃ crew warns,
      create_job_application_crew env rp mp = .ok (crew, warns) ∧
      (pyTruthy env.serper_api_key = false →
        ((build_tools_dict env rp mp).1).search = none ∧ warnNoSerper ∈ warns) ∧
      (pathPrecond env rp = false →
        ((build_tools_dict env rp mp).1).read_resume = none ∧ warnNoResume ∈ warns) ∧
      (pathPrecond env mp = false →
        ((build_tools_dict env rp mp).1).semantic_search = none ∧ warnNoMdx ∈ warns) ∧
      ∀ ag ∈ crew.agents, ag.tools.length < 4 := by
  obtain ⟨crew, warns, hok, hagents, hwarns⟩ := create_crew_ok env rp mp
  obtain ⟨hsc, hse, hrr, hss⟩ := build_tools_isSome env rp mp
  have hwmem :
      (pyTruthy env.serper_api_key = false → warnNoSerper ∈ warns) ∧
      (pathPrecond env rp = false → warnNoResume ∈ warns) ∧
      (pathPrecond env mp = false → warnNoMdx ∈ warns) := by
    subst hwarns
    rw [build_tools_dict_eq]
    refine ⟨fun hf => ?_, fun hf => ?_, fun hf => ?_⟩ <;> simp [hf]
  have habsent : ((build_tools_dict env rp mp).1).search = none ∨
      ((build_tools_dict env rp mp).1).read_resume = none ∨
      ((build_tools_dict env rp mp).1).semantic_search = none := by
    rcases h with hf | hf | hf
    · exact Or.inl (Option.not_isSome_iff_eq_none.mp (by rw [hse, hf]; simp))
    · exact Or.inr (Or.inl (Option.not_isSome_iff_eq_none.mp (by rw [hrr, hf]; simp)))
    · exact Or.inr (Or.inr (Option.not_isSome_iff_eq_none.mp (by rw [hss, hf]; simp)))
  have hlen := subset_length_lt _ hsc habsent
  obtain ⟨r, p, s, i, hag, hr, hp, hs, hi⟩ :=
    create_agents_eq (build_tools_dict env rp mp).1
  refine ⟨crew, warns, hok,
    fun hf => ⟨Option.not_isSome_iff_eq_none.mp (by rw [hse, hf]; simp), hwmem.1 hf⟩,
    fun hf => ⟨Option.not_isSome_iff_eq_none.mp (by rw [hrr, hf]; simp), hwmem.2.1 hf⟩,
    fun hf => ⟨Option.not_isSome_iff_eq_none.mp (by rw [hss, hf]; simp), hwmem.2.2 hf⟩,
    ?_⟩
  intro ag hmem
  rw [hagents, hag] at hmem
  simp only [List.mem_cons, List.not_mem_nil, or_false] at hmem
  rcases hmem with hmem | hmem | hmem | hmem <;> subst hmem
  · rw [hr]; exact hlen.1
  · rw [hp]; exact hlen.2
  · rw [hs]; exact hlen.2
  · rw [hi]; exact hlen.2

/-- Witness for the degraded-capability theorem at a concrete input: an
environment with no `SERPER_API_KEY` and no files, and both paths absent. -/
theorem missing_precondition_degrades_witness :
    (pyTruthy envNoKey.serper_api_key = false ∨
      pathPrecond envNoKey none = false ∨ pathPrecond envNoKey none = false) ∧
    ∃ crew warns,
      create_job_application_crew envNoKey none none = .ok (crew, warns) ∧
      (pyTruthy envNoKey.serper_api_key = false →
        ((build_tools_dict envNoKey none none).1).search = none ∧
          warnNoSerper ∈ warns) ∧
      (pathPrecond envNoKey none = false →
        ((build_tools_dict envNoKey none none).1).read_resume = none ∧
          warnNoResume ∈ warns) ∧
      (pathPrecond envNoKey none = false →
        ((build_tools_dict envNoKey none none).1).semantic_search = none ∧
          warnNoMdx ∈ warns) ∧
      ∀ ag ∈ crew.agents, ag.tools.length < 4 :=
  ⟨Or.inl rfl,
    missing_precondition_degrades envNoKey none none (Or.inl rfl)⟩

/-- C5: for every list of four agents, `create_tasks` returns exactly four
tasks; the first two (research, profile) have no dependencies, the
resume-strategy task depends on the research and profile tasks, the
interview task depends on all three, and the dependency relation admits the
list order as a topological order, hence is well-founded (a DAG). -/
theorem create_tasks_dag (a b c d : Agent) :
    ∃ t0 t1 t2 t3,
      create_tasks [a, b, c, d] = some [t0, t1, t2, t3] ∧
      t0.name = "Extract Job Requirements" ∧
      t1.name = "Compile Applicant Profile" ∧
      t2.name = "Tailor Resume" ∧
      t3.name = "Prepare Interview Materials" ∧
      t0.context = [] ∧ t1.context = [] ∧
      t2.context = [t0, t1] ∧ t3.context = [t0, t1, t2] ∧
      (∀ i j : Nat, taskEdge [t0, t1, t2, t3] i j → j < i) ∧
      WellFounded (fun j i => taskEdge [t0, t1, t2, t3] i j) := by
  obtain ⟨t0, t1, t2, t3, heq, hn0, hn1, hn2, hn3, hc0, hc1, hc2, hc3, topo⟩ :=
    create_tasks_shape a b c d
  exact ⟨t0, t1, t2, t3, heq, hn0, hn1, hn2, hn3, hc0, hc1, hc2, hc3, topo,
    Subrelation.wf (fun {x y} h => topo y x h) Nat.lt_wfRel.wf⟩

/-- C6: for every db, clock value, user id, content and filename,
`save_resume` returns a record whose `user_id` field equals the `user_id`
argument and whose `content` field equals the `content` argument. -/
theorem save_resume_echoes_inputs (db : DB) (now : Nat) (user_id : Int)
    (content : List Nat) (filename : String) :
    (save_resume db now user_id content filename).user_id = user_id ∧
    (save_resume db now user_id content filename).content = content :=
  ⟨rfl, rfl⟩

/-- C7: for every db and every optional resume id, `delete_resume` returns
the empty sequence when `list_only` is true and `None` when it is false. -/
theorem delete_resume_stub (db : DB) (resume_id : Option Int) :
    delete_resume db resume_id true = some [] ∧
    delete_resume db resume_id false = none :=
  ⟨rfl, rfl⟩

/-- C8: for every db, user id and limit, `get_resume_history` returns the
empty list; in particular it is independent of `limit` and never contains a
record. -/
theorem get_resume_history_empty (db : DB) (user_id : Int) (limit : Nat) :
    get_resume_history db user_id limit = [] ∧
    (∀ limit' : Nat,
      get_resume_history db user_id limit = get_resume_history db user_id limit') ∧
    (∀ r : ResumeRecord, r ∉ get_resume_history db user_id limit) :=
  ⟨rfl, fun _ => rfl, fun _ h => List.not_mem_nil _ h⟩

/-- C9: for every resume content and every job description, `tailor_resume`
returns its first argument unchanged, ignoring the job description. -/
theorem tailor_resume_identity (resume_content : List Nat)
    (job_description : String) :
    tailor_resume resume_content job_description = resume_content ∧
    (∀ jd' : String,
      tailor_resume resume_content job_description =
        tailor_resume resume_content jd') :=
  ⟨rfl, fun _ => rfl⟩

/-- C10: every query obtained from `MockSession.query`, after any finite
chain of `filter` calls with any arguments, has `all() = []` and
`first() = None`; moreover `filter` always returns the same query object, so
no chain of mock query operations produces a record. -/
theorem mock_query_never_yields (α : Type) (s : MockSession) (args : CallArgs)
    (calls : List CallArgs) :
    (chainFilters (s.query args) calls).all (α := α) = [] ∧
    (chainFilters (s.query args) calls).first (α := α) = none ∧
    (∀ (q : MockQuery) (a : CallArgs), q.filter a = q) :=
  ⟨rfl, rfl, fun _ _ => rfl⟩

end ATS
